import Mathlib

/-!
Shallow embedding of the Repeater plugin (`src/plugins/Repeater/main.py`)
of the XYBotV2 repository.

Modelling conventions:
* Python `float` timestamps are modelled as `Int` (the claims only involve
  integer second offsets).
* Python dicts keyed by strings are modelled as association lists; dict
  assignment is modelled by consing the new binding in front (lookup takes
  the first match, which gives the same read semantics as overwriting).
* Python sets are modelled as lists used through membership only.
* The fallible outbound transport calls (`bot.send_text_message`,
  `bot.send_emoji_message`, `bot.revoke_message`) are modelled by an
  `Except`-valued oracle passed to the handler: `.ok` carries the values
  the call would have returned, `.error` stands for a raised exception.
  The `try/except` structure of the Python code is reflected in how the
  handler branches on the oracle.
-/

/-- One entry of `ChatSession.messages`: the `msg_info` dict built in
`_handle_message_common` with keys `content`, `sender_wxid`, `timestamp`,
`new_msg_id`, `is_emoji`. -/
structure MsgInfo where
  content : String
  sender_wxid : String
  timestamp : Int
  new_msg_id : Int
  is_emoji : Bool
deriving DecidableEq, Repr

/-- The revoke-info dict stored by `mark_as_repeated`: keys `msg_id`,
`create_time`, `new_msg_id` (captured from the result of the send call). -/
structure RevokeInfo where
  msg_id : Int
  create_time : Int
  new_msg_id : Int
deriving DecidableEq, Repr

/-- The `ChatSession` class: message window, bound, set of already repeated
contents, and the revoke metadata of the repeats sent by the bot. -/
structure ChatSession where
  messages : List MsgInfo
  max_history : Nat
  repeated_contents : List String
  repeated_msgs : List (String × RevokeInfo)
deriving DecidableEq, Repr

/-- Model of `ChatSession.__init__`. -/
def ChatSession.new (max_history : Nat) : ChatSession :=
  { messages := [], max_history := max_history,
    repeated_contents := [], repeated_msgs := [] }

/-- Model of `ChatSession.add_message`: append, then pop the front element if the
length exceeds `max_history`. -/
def ChatSession.add_message (s : ChatSession) (m : MsgInfo) : ChatSession :=
  let msgs := s.messages ++ [m]
  if msgs.length > s.max_history then { s with messages := msgs.tail }
  else { s with messages := msgs }

/-- Model of `ChatSession.should_repeat`: already-repeated contents are refused;
otherwise count the window messages with this content, collect their
senders, and require count ≥ `min_repeat_count`, distinct senders ≥
`min_users`, and that the bot is not among the senders. -/
def ChatSession.should_repeat (s : ChatSession) (content bot_wxid : String)
    (min_repeat_count min_users : Nat) : Bool :=
  if s.repeated_contents.contains content then false
  else
    let same := s.messages.filter (fun m => m.content == content)
    let senders := (same.map (fun m => m.sender_wxid)).dedup
    decide (min_repeat_count ≤ same.length) &&
      decide (min_users ≤ senders.length) &&
      !(senders.contains bot_wxid)

/-- Model of `ChatSession.mark_as_repeated`: add the content to `repeated_contents`
and, when revoke info is given (a truthy dict), store it in
`repeated_msgs`. -/
def ChatSession.mark_as_repeated (s : ChatSession) (content : String)
    (revoke_info : Option RevokeInfo := none) : ChatSession :=
  { s with
    repeated_contents := content :: s.repeated_contents,
    repeated_msgs :=
      match revoke_info with
      | some info => (content, info) :: s.repeated_msgs
      | none => s.repeated_msgs }

/-- Model of `ChatSession.is_content_repeated`. -/
def ChatSession.is_content_repeated (s : ChatSession) (content : String) : Bool :=
  s.repeated_contents.contains content

/-- Model of `ChatSession.find_message_by_new_msg_id`: scan from the newest message
backwards for the first one with this `new_msg_id`. -/
def ChatSession.find_message_by_new_msg_id (s : ChatSession) (new_msg_id : Int) :
    Option MsgInfo :=
  s.messages.reverse.find? (fun m => m.new_msg_id == new_msg_id)

/-- Model of `ChatSession.get_repeated_msg_info`. -/
def ChatSession.get_repeated_msg_info (s : ChatSession) (content : String) :
    Option RevokeInfo :=
  s.repeated_msgs.lookup content

/-- The latest timestamp of a message list, as computed by
`max(msg.get("timestamp", 0) for msg in session.messages)` on a non-empty
list (the empty case is handled separately by the caller). -/
def latestTimestamp : List MsgInfo → Int
  | [] => 0
  | m :: ms => ms.foldl (fun a x => max a x.timestamp) m.timestamp

/-- The expiry test of `_clean_expired_sessions` for one session: an empty
window is expired at once, otherwise the session is expired when
`current_time - latest > cache_timeout`. -/
def sessionExpired (cache_timeout current_time : Int) (s : ChatSession) : Bool :=
  match s.messages with
  | [] => true
  | _ => decide (cache_timeout < current_time - latestTimestamp s.messages)

/-- The `Repeater` plugin object: configuration fields read from
`config.toml` plus the `chat_sessions` store. -/
structure Repeater where
  enable : Bool
  cache_timeout : Int
  enable_in_group : Bool
  enable_in_private : Bool
  max_history : Nat
  min_repeat_count : Nat
  min_different_users : Nat
  chat_sessions : List (String × ChatSession)
deriving DecidableEq, Repr

/-- Model of `Repeater._clean_expired_sessions`: delete every expired session. -/
def Repeater.clean_expired_sessions (r : Repeater) (current_time : Int) : Repeater :=
  { r with chat_sessions :=
      r.chat_sessions.filter fun p =>
        !(sessionExpired r.cache_timeout current_time p.2) }

/-- Model of `Repeater._get_or_create_session`: return the stored session, creating
a fresh one under this key when absent. -/
def Repeater.get_or_create_session (r : Repeater) (wxid : String) :
    Repeater × ChatSession :=
  match r.chat_sessions.lookup wxid with
  | some s => (r, s)
  | none =>
      let s := ChatSession.new r.max_history
      ({ r with chat_sessions := r.chat_sessions ++ [(wxid, s)] }, s)

/-- Write an updated session object back under its key (the Python code
mutates the session in place; the functional model writes it back). -/
def Repeater.setSession (r : Repeater) (wxid : String) (s : ChatSession) : Repeater :=
  { r with chat_sessions :=
      r.chat_sessions.map (fun p => if p.1 == wxid then (p.1, s) else p) }

/-- The inbound message dict, restricted to the keys the handler reads. -/
structure InboundMsg where
  IsGroup : Bool
  FromWxid : String
  SenderWxid : String
  NewMsgId : Int
deriving DecidableEq, Repr

/-- Model of `Repeater._should_process_message`: the plugin must be enabled and the
chat type (group or private) enabled by configuration. -/
def Repeater.should_process_message (r : Repeater) (message : InboundMsg) : Bool :=
  if !r.enable then false
  else if (message.IsGroup && !r.enable_in_group) ||
      (!message.IsGroup && !r.enable_in_private) then false
  else true

/-- Model of `Repeater._handle_message_common`. Here `sendResult` is the outcome of the
single outbound send call (`send_text_message` or `send_emoji_message`):
`.ok` carries the identifiers used to build the revoke info,
`.error` models a raised exception, which the `except` clause absorbs
(so `mark_as_repeated` is not reached on that path; the `finally` clause
only logs). Returns the new plugin state and the return value of the handler. -/
def Repeater.handle_message_common (r : Repeater) (bot_wxid : String)
    (sendResult : Except String RevokeInfo) (message : InboundMsg)
    (content : String) (is_emoji : Bool) (current_time : Int) :
    Repeater × Bool :=
  if !(r.should_process_message message) then (r, true)
  else
    let from_wxid := message.FromWxid
    let r1 := r.clean_expired_sessions current_time
    let rs := r1.get_or_create_session from_wxid
    let msg_info : MsgInfo :=
      { content := content, sender_wxid := message.SenderWxid,
        timestamp := current_time, new_msg_id := message.NewMsgId,
        is_emoji := is_emoji }
    let session := rs.2.add_message msg_info
    if session.is_content_repeated content then
      (rs.1.setSession from_wxid session, true)
    else if session.should_repeat content bot_wxid
        r.min_repeat_count r.min_different_users then
      match sendResult with
      | .ok info =>
          (rs.1.setSession from_wxid
            (session.mark_as_repeated content (some info)), true)
      | .error _ => (rs.1.setSession from_wxid session, true)
    else
      (rs.1.setSession from_wxid session, true)

/-- The revoke event dict, restricted to the keys `handle_revoke` reads:
`message["Revoke"]["NewMsgId"]` and `message["FromWxid"]`. -/
structure RevokeEvent where
  FromWxid : String
  NewMsgId : Int
deriving DecidableEq, Repr

/-- One outbound `bot.revoke_message` call with its four arguments. -/
structure RevokeCall where
  from_wxid : String
  msg_id : Int
  create_time : Int
  new_msg_id : Int
deriving DecidableEq, Repr

/-- Model of `Repeater.handle_revoke`. Here `revokeResult` is the outcome of the outbound
`revoke_message` call; it is only logged by the code, so it does not
influence the result. Returns the (unchanged) plugin state, the
return value, and the list of outbound revoke calls issued. -/
def Repeater.handle_revoke (r : Repeater) (message : RevokeEvent)
    (revokeResult : Except String Bool) : Repeater × Bool × List RevokeCall :=
  if !r.enable then (r, true, [])
  else if message.NewMsgId == 0 || message.FromWxid == "" then (r, true, [])
  else
    match r.chat_sessions.lookup message.FromWxid with
    | none => (r, true, [])
    | some session =>
        match session.find_message_by_new_msg_id message.NewMsgId with
        | none => (r, true, [])
        | some revoked_msg =>
            if revoked_msg.content == "" then (r, true, [])
            else
              match session.get_repeated_msg_info revoked_msg.content with
              | none => (r, true, [])
              | some info =>
                  match revokeResult with
                  | _ =>
                      (r, true,
                        [{ from_wxid := message.FromWxid,
                           msg_id := info.msg_id,
                           create_time := info.create_time,
                           new_msg_id := info.new_msg_id }])

/-- The plugin state right after a successful `_load_config`: configuration
fields as read from the file, `chat_sessions` initialised empty. -/
def Repeater.initial (enable : Bool) (cache_timeout : Int)
    (enable_in_group enable_in_private : Bool)
    (max_history min_repeat_count min_different_users : Nat) : Repeater :=
  { enable := enable, cache_timeout := cache_timeout,
    enable_in_group := enable_in_group, enable_in_private := enable_in_private,
    max_history := max_history, min_repeat_count := min_repeat_count,
    min_different_users := min_different_users, chat_sessions := [] }

/-- The state-mutating operations of the `ChatSession` class
(`should_repeat`, `is_content_repeated`, `find_message_by_new_msg_id` and
`get_repeated_msg_info` are read-only). -/
inductive SessionOp where
  | add (m : MsgInfo)
  | mark (content : String) (info : Option RevokeInfo)
deriving DecidableEq, Repr

/-- Apply one session operation. -/
def applyOp (s : ChatSession) : SessionOp → ChatSession
  | .add m => s.add_message m
  | .mark c i => s.mark_as_repeated c i

/-- Apply a sequence of session operations in order. -/
def applyOps (s : ChatSession) (ops : List SessionOp) : ChatSession :=
  ops.foldl applyOp s

/-- Append a sequence of records through `add_message`. -/
def ChatSession.addAll (s : ChatSession) (ms : List MsgInfo) : ChatSession :=
  ms.foldl ChatSession.add_message s

/-- One event consumed by the plugin: an inbound message (dispatched by
`handle_text` / `handle_quote` / `handle_at` / `handle_emoji` to
`_handle_message_common`, with the content identity already extracted) or a
revoke notification (dispatched to `handle_revoke`). -/
inductive Event where
  | msg (bot_wxid : String) (sendResult : Except String RevokeInfo)
      (message : InboundMsg) (content : String) (is_emoji : Bool) (t : Int)
  | rev (message : RevokeEvent) (revokeResult : Except String Bool)

/-- State transition of the plugin on one event. -/
def Repeater.step (r : Repeater) : Event → Repeater
  | .msg b sr m c e t => (r.handle_message_common b sr m c e t).1
  | .rev m res => (r.handle_revoke m res).1

/-- Run the plugin over a list of events. -/
def Repeater.run (r : Repeater) (es : List Event) : Repeater :=
  es.foldl Repeater.step r

/-!
Ghost instrumentation: to state that `repeated_msgs` entries correspond to
echoes that were actually sent, the store is augmented with a ghost field
per session listing the contents for which the outbound send completed
successfully during the lifetime of this session object.  The augmented
semantics mirrors `_handle_message_common` step for step; a projection
theorem shows that erasing the ghost gives back the real store.
-/

/-- Augmented session store: each entry pairs a real store entry
`(wxid, session)` with the ghost list of successfully sent contents. -/
abbrev AugStore := List ((String × ChatSession) × List String)

/-- Ghost mirror of `_clean_expired_sessions`. -/
def augClean (cache_timeout current_time : Int) (A : AugStore) : AugStore :=
  A.filter fun p => !(sessionExpired cache_timeout current_time p.1.2)

/-- Ghost mirror of the dict lookup in `_get_or_create_session`. -/
def augLookup (wxid : String) : AugStore → Option (ChatSession × List String)
  | [] => none
  | p :: rest => if wxid == p.1.1 then some (p.1.2, p.2) else augLookup wxid rest

/-- Ghost mirror of `_get_or_create_session`. -/
def augGetOrCreate (max_history : Nat) (wxid : String) (A : AugStore) :
    AugStore × ChatSession × List String :=
  match augLookup wxid A with
  | some sg => (A, sg)
  | none =>
      (A ++ [((wxid, ChatSession.new max_history), [])],
        ChatSession.new max_history, [])

/-- Ghost mirror of `Repeater.setSession`: write back the updated session
together with its ghost list. -/
def augSet (wxid : String) (s : ChatSession) (g : List String) (A : AugStore) :
    AugStore :=
  A.map fun p => if p.1.1 == wxid then ((p.1.1, s), g) else p

/-- Ghost mirror of `_handle_message_common`: same control flow, with the
ghost list extended by `content` exactly in the branch where the outbound
send succeeded. -/
def augHandleMsg (r : Repeater) (bot_wxid : String)
    (sendResult : Except String RevokeInfo) (message : InboundMsg)
    (content : String) (is_emoji : Bool) (current_time : Int)
    (A : AugStore) : AugStore :=
  if !(r.should_process_message message) then A
  else
    let A1 := augClean r.cache_timeout current_time A
    let acs := augGetOrCreate r.max_history message.FromWxid A1
    let msg_info : MsgInfo :=
      { content := content, sender_wxid := message.SenderWxid,
        timestamp := current_time, new_msg_id := message.NewMsgId,
        is_emoji := is_emoji }
    let session := acs.2.1.add_message msg_info
    if session.is_content_repeated content then
      augSet message.FromWxid session acs.2.2 acs.1
    else if session.should_repeat content bot_wxid
        r.min_repeat_count r.min_different_users then
      match sendResult with
      | .ok info =>
          augSet message.FromWxid (session.mark_as_repeated content (some info))
            (content :: acs.2.2) acs.1
      | .error _ => augSet message.FromWxid session acs.2.2 acs.1
    else
      augSet message.FromWxid session acs.2.2 acs.1

/-- Augmented transition: the real plugin state steps as in
`Repeater.step`; the ghost store steps through the mirror. -/
def augStep : Repeater × AugStore → Event → Repeater × AugStore
  | (r, A), .msg b sr m c e t =>
      ((r.handle_message_common b sr m c e t).1, augHandleMsg r b sr m c e t A)
  | (r, A), .rev m res => ((r.handle_revoke m res).1, A)

/-- Run the augmented semantics over a list of events. -/
def augRun (p : Repeater × AugStore) (es : List Event) : Repeater × AugStore :=
  es.foldl augStep p

/-- The per-entry invariant of claim C8: a content has revoke metadata iff
it is among the repeated contents and among the contents whose echo was
actually sent. -/
def entryInv (e : (String × ChatSession) × List String) : Prop :=
  ∀ c : String,
    (e.1.2.repeated_msgs.lookup c).isSome
      ↔ (c ∈ e.1.2.repeated_contents ∧ c ∈ e.2)

/-- The store-wide invariant of claim C8. -/
def storeInv (A : AugStore) : Prop := ∀ e ∈ A, entryInv e

/-- Example message record used in concrete instances. -/
def exMsg1 : MsgInfo :=
  { content := "hi", sender_wxid := "a", timestamp := 5, new_msg_id := 11,
    is_emoji := false }

/-- Example session holding one message. -/
def exSession : ChatSession :=
  { messages := [exMsg1], max_history := 50, repeated_contents := [],
    repeated_msgs := [] }

/-- Example plugin state: enabled for groups, one session under key `g`. -/
def exRepeater : Repeater :=
  { enable := true, cache_timeout := 3600, enable_in_group := true,
    enable_in_private := false, max_history := 50, min_repeat_count := 2,
    min_different_users := 2, chat_sessions := [("g", exSession)] }

/-- Example inbound group message from a second sender. -/
def exInbound : InboundMsg :=
  { IsGroup := true, FromWxid := "g", SenderWxid := "b", NewMsgId := 12 }

/-- Example message with empty content (reachable: a text message whose
stripped content is empty still flows through the handler). -/
def exEmptyMsg : MsgInfo :=
  { content := "", sender_wxid := "a", timestamp := 5, new_msg_id := 7, is_emoji := false }

/-- Example session whose window holds `exEmptyMsg` with revoke metadata
registered for the empty content. -/
def exEmptySession : ChatSession :=
  { messages := [exEmptyMsg],
    max_history := 50, repeated_contents := [""],
    repeated_msgs := [("", { msg_id := 1, create_time := 2, new_msg_id := 3 })] }

/-- Example plugin state holding `exEmptySession`. -/
def exEmptyRepeater : Repeater :=
  { exRepeater with chat_sessions := [("g", exEmptySession)] }

/-- Example session in which `hi` was echoed and carries revoke metadata. -/
def exEchoedSession : ChatSession :=
  { messages := [exMsg1], max_history := 50, repeated_contents := ["hi"],
    repeated_msgs := [("hi", { msg_id := 100, create_time := 10, new_msg_id := 500 })] }

/-- Example plugin state holding `exEchoedSession`. -/
def exEchoedRepeater : Repeater :=
  { exRepeater with chat_sessions := [("g", exEchoedSession)] }

/-- Example second message record, sender `b`. -/
def exMsg2 : MsgInfo :=
  { content := "hi", sender_wxid := "b", timestamp := 10, new_msg_id := 12, is_emoji := false }

/-- Example event: user `a` sends `hi` at time 5. -/
def exEv1 : Event :=
  .msg "bot" (.ok { msg_id := 100, create_time := 10, new_msg_id := 500 })
    { IsGroup := true, FromWxid := "g", SenderWxid := "a", NewMsgId := 11 }
    "hi" false 5

/-- Example event: user `b` sends `hi` at time 10, triggering the echo. -/
def exEv2 : Event :=
  .msg "bot" (.ok { msg_id := 100, create_time := 10, new_msg_id := 500 })
    exInbound "hi" false 10

/-- Session state reached after `exEv1` and `exEv2`. -/
def exRunSession : ChatSession :=
  { messages := [exMsg1, exMsg2], max_history := 50,
    repeated_contents := ["hi"],
    repeated_msgs := [("hi", { msg_id := 100, create_time := 10, new_msg_id := 500 })] }

/-- C3: if fewer than `min_repeat_count` window messages carry the content,
or the messages carrying it come from fewer than `min_users` distinct
senders, then `should_repeat` returns false. -/
theorem should_repeat_below_threshold
    (s : ChatSession) (content bot_wxid : String)
    (min_repeat_count min_users : Nat)
    (h : (s.messages.filter (fun m => m.content == content)).length
          < min_repeat_count
        ∨ (((s.messages.filter (fun m => m.content == content)).map
              (fun m => m.sender_wxid)).dedup).length < min_users) :
    s.should_repeat content bot_wxid min_repeat_count min_users = false := by
  unfold ChatSession.should_repeat
  split
  · rfl
  · rcases h with h | h
    · simp [Nat.not_le.mpr h]
    · simp [Nat.not_le.mpr h]

/-- Witness for C3 at a concrete session: one message with content `hi`
from one sender, thresholds 2 and 2. -/
theorem should_repeat_below_threshold_witness :
    ((exSession.messages.filter (fun m => m.content == "hi")).length < 2
      ∨ (((exSession.messages.filter (fun m => m.content == "hi")).map
            (fun m => m.sender_wxid)).dedup).length < 2)
    ∧ exSession.should_repeat "hi" "bot" 2 2 = false :=
  ⟨Or.inl (by decide),
    should_repeat_below_threshold exSession "hi" "bot" 2 2 (Or.inl (by decide))⟩

/-- C4: if the bot is among the senders of the window messages carrying the
content, `should_repeat` returns false whatever the counts are. -/
theorem should_repeat_self_excluded
    (s : ChatSession) (content bot_wxid : String)
    (min_repeat_count min_users : Nat)
    (h : ∃ m ∈ s.messages, m.content = content ∧ m.sender_wxid = bot_wxid) :
    s.should_repeat content bot_wxid min_repeat_count min_users = false := by
  unfold ChatSession.should_repeat
  split
  · rfl
  · obtain ⟨m, hm, hc, hsend⟩ := h
    simp
    intro _ _
    exact ⟨m, ⟨hm, hc⟩, hsend⟩

/-- Example message sent by the bot itself. -/
def exBotMsg : MsgInfo :=
  { content := "hi", sender_wxid := "bot", timestamp := 1, new_msg_id := 1, is_emoji := false }

/-- Session in which the bot itself repeated `hi` alongside another user. -/
def exBotSession : ChatSession :=
  { messages :=
      [exBotMsg,
       { content := "hi", sender_wxid := "a", timestamp := 2, new_msg_id := 2, is_emoji := false },
       { content := "hi", sender_wxid := "bot", timestamp := 3, new_msg_id := 3, is_emoji := false }],
    max_history := 50, repeated_contents := [], repeated_msgs := [] }

/-- Witness for C4: the bot itself sent `hi` twice alongside another user;
counts meet the thresholds yet `should_repeat` is false. -/
theorem should_repeat_self_excluded_witness :
    (∃ m ∈ exBotSession.messages,
        m.content = "hi" ∧ m.sender_wxid = "bot")
    ∧ exBotSession.should_repeat "hi" "bot" 2 2 = false :=
  ⟨⟨exBotMsg, by decide, rfl, rfl⟩,
    should_repeat_self_excluded exBotSession "hi" "bot" 2 2
      ⟨exBotMsg, by decide, rfl, rfl⟩⟩

/-- Helper: no session operation removes an element of
`repeated_contents`. -/
theorem applyOp_repeated_contents_mono (s : ChatSession) (op : SessionOp)
    (c : String) (h : c ∈ s.repeated_contents) :
    c ∈ (applyOp s op).repeated_contents := by
  cases op with
  | add m =>
      simp only [applyOp, ChatSession.add_message]
      split <;> exact h
  | mark c' i =>
      simp only [applyOp, ChatSession.mark_as_repeated]
      exact List.mem_cons_of_mem _ h

/-- Helper: `repeated_contents` membership survives any operation
sequence. -/
theorem applyOps_repeated_contents_mono (ops : List SessionOp) :
    ∀ (s : ChatSession) (c : String), c ∈ s.repeated_contents →
      c ∈ (applyOps s ops).repeated_contents := by
  induction ops with
  | nil => intro s c h; exact h
  | cons op ops ih =>
      intro s c h
      exact ih (applyOp s op) c (applyOp_repeated_contents_mono s op c h)

/-- C2: once a content is in `repeated_contents`, it stays there under any
sequence of session operations, and `should_repeat` keeps returning false
for it whatever the window then holds. -/
theorem repeated_content_permanent (s : ChatSession) (ops : List SessionOp)
    (c bot_wxid : String) (min_repeat_count min_users : Nat)
    (h : c ∈ s.repeated_contents) :
    c ∈ (applyOps s ops).repeated_contents ∧
      (applyOps s ops).should_repeat c bot_wxid min_repeat_count min_users
        = false := by
  have hmem := applyOps_repeated_contents_mono ops s c h
  refine ⟨hmem, ?_⟩
  simp only [ChatSession.should_repeat]
  simp
  intro hn
  exact absurd hmem hn

/-- Witness for C2: content `hi` already repeated, two more messages with
it appended and a fresh mark performed; it stays repeated and suppressed. -/
theorem repeated_content_permanent_witness :
    "hi" ∈ ({ exSession with repeated_contents := ["hi"] } : ChatSession).repeated_contents ∧
    ("hi" ∈ (applyOps { exSession with repeated_contents := ["hi"] }
        [SessionOp.add exMsg1, SessionOp.mark "yo" none]).repeated_contents ∧
      (applyOps { exSession with repeated_contents := ["hi"] }
        [SessionOp.add exMsg1, SessionOp.mark "yo" none]).should_repeat
          "hi" "bot" 2 2 = false) :=
  ⟨by decide,
    repeated_content_permanent { exSession with repeated_contents := ["hi"] }
      [SessionOp.add exMsg1, SessionOp.mark "yo" none] "hi" "bot" 2 2
      (by decide)⟩

/-- Helper: `add_message` keeps the configured bound. -/
theorem add_message_max_history (s : ChatSession) (m : MsgInfo) :
    (s.add_message m).max_history = s.max_history := by
  simp only [ChatSession.add_message]
  split <;> rfl

/-- Helper: `add_message` keeps the window length within the bound. -/
theorem add_message_length_le (s : ChatSession) (m : MsgInfo)
    (h : s.messages.length ≤ s.max_history) :
    (s.add_message m).messages.length ≤ s.max_history := by
  simp only [ChatSession.add_message]
  split
  · next hgt => simp at hgt ⊢; omega
  · next hle => simp at hle ⊢; omega

/-- Helper: the window length stays within the bound over any sequence of
appends. -/
theorem addAll_length_le (ms : List MsgInfo) :
    ∀ (s : ChatSession), s.messages.length ≤ s.max_history →
      (s.addAll ms).messages.length ≤ (s.addAll ms).max_history ∧
        (s.addAll ms).max_history = s.max_history := by
  induction ms with
  | nil => intro s h; exact ⟨h, rfl⟩
  | cons m ms ih =>
      intro s h
      have hstep : (s.add_message m).messages.length
          ≤ (s.add_message m).max_history := by
        rw [add_message_max_history]
        exact add_message_length_le s m h
      have := ih (s.add_message m) hstep
      exact ⟨this.1, this.2.trans (add_message_max_history s m)⟩

/-- Helper: closed form of the window after a sequence of appends, for a
positive bound and a window currently within the bound: the window is the
suffix of the concatenated stream of length at most the bound. -/
theorem addAll_messages_eq (ms : List MsgInfo) :
    ∀ (s : ChatSession), 0 < s.max_history →
      s.messages.length ≤ s.max_history →
      (s.addAll ms).messages
        = (s.messages ++ ms).drop (s.messages.length + ms.length
            - s.max_history) := by
  induction ms with
  | nil =>
      intro s hpos hle
      simp [ChatSession.addAll, Nat.sub_eq_zero_of_le hle]
  | cons m ms ih =>
      intro s hpos hle
      show ((s.add_message m).addAll ms).messages = _
      by_cases hcase : s.messages.length + 1 ≤ s.max_history
      · have hadd : s.add_message m = { s with messages := s.messages ++ [m] } := by
          simp only [ChatSession.add_message]
          rw [if_neg]
          simp
          omega
        rw [hadd]
        rw [ih { s with messages := s.messages ++ [m] } hpos (by simp; omega)]
        simp only [List.append_assoc, List.singleton_append, List.length_append,
          List.length_cons]
        congr 1
        simp
        omega
      · have hlen : s.messages.length = s.max_history := by omega
        obtain ⟨a, rest, hms⟩ : ∃ a rest, s.messages = a :: rest := by
          cases hm : s.messages with
          | nil => rw [hm] at hlen; simp at hlen; omega
          | cons a rest => exact ⟨a, rest, rfl⟩
        have hlen2 : rest.length + 1 = s.max_history := by
          rw [hms] at hlen; simpa using hlen
        have hadd : s.add_message m
            = { s with messages := rest ++ [m] } := by
          simp only [ChatSession.add_message]
          rw [if_pos]
          · rw [hms]; rfl
          · simp; omega
        rw [hadd]
        rw [ih { s with messages := rest ++ [m] } hpos (by simp; omega)]
        rw [hms]
        dsimp only
        simp only [List.length_append, List.length_cons, List.length_nil,
          List.append_assoc, List.singleton_append, List.cons_append]
        have e1 : rest.length + 1 + ms.length - s.max_history = ms.length := by
          omega
        have e2 : rest.length + 1 + (ms.length + 1) - s.max_history
            = ms.length + 1 := by omega
        rw [e1, e2, List.drop_succ_cons]
        simp

/-- C5: starting from a fresh session with a positive bound, appending a
record stream leaves exactly the last `max_history` records in arrival
order (all earlier ones absent), and the window length stays within the
bound after every prefix of the appends. -/
theorem window_bound_fifo (max_history : Nat) (ms : List MsgInfo)
    (hpos : 0 < max_history) :
    ((ChatSession.new max_history).addAll ms).messages
        = ms.drop (ms.length - max_history)
      ∧ ∀ n : Nat,
          ((ChatSession.new max_history).addAll (ms.take n)).messages.length
            ≤ max_history := by
  constructor
  · have h := addAll_messages_eq ms (ChatSession.new max_history) hpos
      (by simp [ChatSession.new])
    simpa [ChatSession.new] using h
  · intro n
    have h := addAll_length_le (ms.take n) (ChatSession.new max_history)
      (by simp [ChatSession.new])
    exact le_of_le_of_eq h.1 h.2

/-- Witness for C5: bound 2, three appended records; the window holds the
last two and every prefix keeps the bound. -/
theorem window_bound_fifo_witness :
    0 < 2 ∧
      (((ChatSession.new 2).addAll [exMsg1, exBotMsg, exEmptyMsg]).messages
          = [exMsg1, exBotMsg, exEmptyMsg].drop
              ([exMsg1, exBotMsg, exEmptyMsg].length - 2)
        ∧ ∀ n : Nat,
            ((ChatSession.new 2).addAll
              ([exMsg1, exBotMsg, exEmptyMsg].take n)).messages.length ≤ 2) :=
  ⟨by decide, window_bound_fifo 2 [exMsg1, exBotMsg, exEmptyMsg] (by decide)⟩

/-- Helper: the expiry test is negative exactly for a non-empty window
whose latest timestamp is within the timeout. -/
theorem sessionExpired_eq_false_iff (ct t : Int) (s : ChatSession) :
    sessionExpired ct t s = false
      ↔ (s.messages ≠ [] ∧ t - latestTimestamp s.messages ≤ ct) := by
  cases h : s.messages with
  | nil => simp [sessionExpired, h]
  | cons a l =>
      simp [sessionExpired, h, not_lt]

/-- C7: the sweep keeps a stored session exactly when its window is
non-empty and the latest window timestamp is at most `cache_timeout` old;
equivalently, it removes it exactly when the window is empty or
`now - latest > cache_timeout`. -/
theorem sweep_keeps_iff (r : Repeater) (t : Int) (w : String) (s : ChatSession) :
    (w, s) ∈ (r.clean_expired_sessions t).chat_sessions
      ↔ ((w, s) ∈ r.chat_sessions ∧ s.messages ≠ [] ∧
          t - latestTimestamp s.messages ≤ r.cache_timeout) := by
  unfold Repeater.clean_expired_sessions
  dsimp only
  rw [List.mem_filter]
  constructor
  · rintro ⟨h1, h2⟩
    refine ⟨h1, ?_⟩
    exact (sessionExpired_eq_false_iff r.cache_timeout t s).mp (by simpa using h2)
  · rintro ⟨h1, h2⟩
    refine ⟨h1, ?_⟩
    simpa using (sessionExpired_eq_false_iff r.cache_timeout t s).mpr h2

/-- C9: both handlers always return the continue signal, whether the
outbound call succeeds or raises. -/
theorem handlers_always_continue (r : Repeater) (b : String)
    (sr : Except String RevokeInfo) (m : InboundMsg) (c : String) (e : Bool)
    (t : Int) (ev : RevokeEvent) (res : Except String Bool) :
    (r.handle_message_common b sr m c e t).2 = true
      ∧ (r.handle_revoke ev res).2.1 = true := by
  constructor
  · simp only [Repeater.handle_message_common]
    split
    · rfl
    · split
      · rfl
      · split
        · cases sr <;> rfl
        · rfl
  · simp only [Repeater.handle_revoke]
    split
    · rfl
    · split
      · rfl
      · split
        · rfl
        · split
          · rfl
          · split
            · rfl
            · split
              · rfl
              · rfl

/-- C10: when the gate refuses the message (plugin disabled or chat type
not enabled), the handler returns the continue signal and the whole plugin
state, session store included, is unchanged. -/
theorem gated_message_no_state_change (r : Repeater) (b : String)
    (sr : Except String RevokeInfo) (m : InboundMsg) (c : String) (e : Bool)
    (t : Int) (h : r.should_process_message m = false) :
    r.handle_message_common b sr m c e t = (r, true) := by
  unfold Repeater.handle_message_common
  rw [h]
  rfl

/-- Witness for C10: a disabled plugin leaves the state unchanged. -/
theorem gated_message_no_state_change_witness :
    ({ exRepeater with enable := false } : Repeater).should_process_message
        exInbound = false
      ∧ ({ exRepeater with enable := false } : Repeater).handle_message_common
          "bot" (.ok { msg_id := 1, create_time := 2, new_msg_id := 3 })
          exInbound "hi" false 10
        = ({ exRepeater with enable := false }, true) :=
  ⟨by decide,
    gated_message_no_state_change { exRepeater with enable := false } "bot"
      (.ok { msg_id := 1, create_time := 2, new_msg_id := 3 })
      exInbound "hi" false 10 (by decide)⟩

/-- C1 counterexample: a state in which `should_repeat` decides to echo,
the send raises, and the content is NOT in `repeated_contents` afterwards
(the claim asserts it would be). The first conjunct shows the decision to
echo was indeed taken at the decision point of the handler. -/
theorem send_failure_marks_counterexample :
    ((((exRepeater.clean_expired_sessions 10).get_or_create_session "g").2.add_message
        { content := "hi", sender_wxid := "b", timestamp := 10,
          new_msg_id := 12, is_emoji := false }).should_repeat
        "hi" "bot" 2 2 = true)
    ∧ ((exRepeater.handle_message_common "bot" (.error "boom") exInbound
          "hi" false 10).1.chat_sessions.lookup "g").isSome = true
    ∧ ¬ ("hi" ∈ (((exRepeater.handle_message_common "bot" (.error "boom")
          exInbound "hi" false 10).1.chat_sessions.lookup "g").getD
            (ChatSession.new 0)).repeated_contents) := by
  decide

/-- C1 (amended): when the outbound send raises, `mark_as_repeated` is
never reached — the resulting state is exactly the one produced by the
sweep, the session resolution and the window append, with
`repeated_contents` and `repeated_msgs` untouched (the `finally` clause
only logs). -/
theorem send_failure_does_not_mark (r : Repeater) (b err : String)
    (m : InboundMsg) (c : String) (e : Bool) (t : Int) :
    r.handle_message_common b (.error err) m c e t
      = (if r.should_process_message m then
          (((r.clean_expired_sessions t).get_or_create_session m.FromWxid).1.setSession
              m.FromWxid
              (((r.clean_expired_sessions t).get_or_create_session
                  m.FromWxid).2.add_message
                { content := c, sender_wxid := m.SenderWxid, timestamp := t,
                  new_msg_id := m.NewMsgId, is_emoji := e }), true)
        else (r, true)) := by
  unfold Repeater.handle_message_common
  cases h : r.should_process_message m with
  | false => rfl
  | true =>
      dsimp only
      split
      · next hx => simp at hx
      · split
        · rfl
        · split
          · rfl
          · rfl

/-- Helper: `handle_revoke` never changes the plugin state. -/
theorem handle_revoke_state_unchanged (r : Repeater) (ev : RevokeEvent)
    (res : Except String Bool) : (r.handle_revoke ev res).1 = r := by
  simp only [Repeater.handle_revoke]
  split
  · rfl
  · split
    · rfl
    · split
      · rfl
      · split
        · rfl
        · split
          · rfl
          · split
            · rfl
            · rfl

/-- C6 counterexample: a message with empty content was echoed and has
revoke metadata; a revoke event matching its id finds the record and the
metadata, yet no outbound revoke call is issued (the claim requires exactly
one). -/
theorem revoke_correlation_counterexample :
    exEmptyRepeater.enable = true
    ∧ exEmptyRepeater.chat_sessions.lookup "g" = some exEmptySession
    ∧ exEmptySession.find_message_by_new_msg_id 7 = some exEmptyMsg
    ∧ exEmptySession.get_repeated_msg_info exEmptyMsg.content
        = some { msg_id := 1, create_time := 2, new_msg_id := 3 }
    ∧ (exEmptyRepeater.handle_revoke { FromWxid := "g", NewMsgId := 7 }
        (.ok true)).2.2 = [] := by
  decide

/-- C6 (amended): with the plugin enabled, a non-zero revoked id, a
non-empty chat key and a stored session: the plugin state is unchanged; a
revoke whose id matches no window record, or matches one whose content has
no revoke metadata, or matches one whose content is the empty string,
issues no outbound revoke call; a revoke matching a record with non-empty
content that has revoke metadata issues exactly one call carrying the
three identifiers captured at echo time. -/
theorem revoke_correlation (r : Repeater) (ev : RevokeEvent)
    (res : Except String Bool) (s : ChatSession)
    (hEn : r.enable = true) (hId : ev.NewMsgId ≠ 0) (hFrom : ev.FromWxid ≠ "")
    (hS : r.chat_sessions.lookup ev.FromWxid = some s) :
    (r.handle_revoke ev res).1 = r
    ∧ (s.find_message_by_new_msg_id ev.NewMsgId = none →
        (r.handle_revoke ev res).2.2 = [])
    ∧ (∀ msg, s.find_message_by_new_msg_id ev.NewMsgId = some msg →
        s.get_repeated_msg_info msg.content = none →
        (r.handle_revoke ev res).2.2 = [])
    ∧ (∀ msg, s.find_message_by_new_msg_id ev.NewMsgId = some msg →
        msg.content = "" →
        (r.handle_revoke ev res).2.2 = [])
    ∧ (∀ msg info, s.find_message_by_new_msg_id ev.NewMsgId = some msg →
        msg.content ≠ "" →
        s.get_repeated_msg_info msg.content = some info →
        (r.handle_revoke ev res).2.2
          = [{ from_wxid := ev.FromWxid, msg_id := info.msg_id,
               create_time := info.create_time,
               new_msg_id := info.new_msg_id }]) := by
  have hne : (ev.NewMsgId == 0) = false := by
    simpa using hId
  have hnf : (ev.FromWxid == "") = false := by
    simpa using hFrom
  refine ⟨handle_revoke_state_unchanged r ev res, ?_, ?_, ?_, ?_⟩
  · intro hfind
    simp only [Repeater.handle_revoke, hEn, hne, hnf, hS, hfind]
    rfl
  · intro msg hfind hmeta
    simp only [Repeater.handle_revoke, hEn, hne, hnf, hS, hfind]
    by_cases hc : msg.content = ""
    · simp [hc]
    · simp only [ChatSession.get_repeated_msg_info] at hmeta
      simp [hc, hmeta, ChatSession.get_repeated_msg_info]
  · intro msg hfind hc
    simp only [Repeater.handle_revoke, hEn, hne, hnf, hS, hfind]
    simp [hc]
  · intro msg info hfind hc hmeta
    simp only [Repeater.handle_revoke, hEn, hne, hnf, hS, hfind]
    simp only [ChatSession.get_repeated_msg_info] at hmeta
    simp [hc, hmeta, ChatSession.get_repeated_msg_info]


/-- Witness for C6 (amended): revoking the echoed `hi` message issues
exactly one call with the captured identifiers. -/
theorem revoke_correlation_witness :
    exEchoedRepeater.enable = true
    ∧ (11 : Int) ≠ 0
    ∧ ("g" : String) ≠ ""
    ∧ exEchoedRepeater.chat_sessions.lookup "g" = some exEchoedSession
    ∧ (exEchoedRepeater.handle_revoke { FromWxid := "g", NewMsgId := 11 }
        (.ok true)).2.2
      = [{ from_wxid := "g", msg_id := 100, create_time := 10,
           new_msg_id := 500 }] :=
  ⟨by decide, by decide, by decide, by decide,
    (revoke_correlation exEchoedRepeater { FromWxid := "g", NewMsgId := 11 }
        (.ok true) exEchoedSession (by decide) (by decide) (by decide)
        (by decide)).2.2.2.2 exMsg1
      { msg_id := 100, create_time := 10, new_msg_id := 500 }
      (by decide) (by decide) (by decide)⟩

/-- Helper: looking a key up in the projected store is the projection of
the augmented lookup. -/
theorem augLookup_map_fst (w : String) (A : AugStore) :
    (A.map Prod.fst).lookup w = (augLookup w A).map Prod.fst := by
  induction A with
  | nil => rfl
  | cons p rest ih =>
      obtain ⟨⟨k, s⟩, g⟩ := p
      simp only [List.map_cons, List.lookup, augLookup]
      cases hkw : w == k with
      | true => simp [hkw]
      | false => simpa [hkw] using ih

/-- Helper: a successful augmented lookup returns a stored entry. -/
theorem augLookup_mem (w : String) (A : AugStore)
    (sg : ChatSession × List String) (h : augLookup w A = some sg) :
    ((w, sg.1), sg.2) ∈ A := by
  induction A with
  | nil => simp [augLookup] at h
  | cons p rest ih =>
      obtain ⟨⟨k, s⟩, g⟩ := p
      simp only [augLookup] at h
      by_cases hkw : (w == k) = true
      · rw [if_pos hkw] at h
        have hk : w = k := by simpa using hkw
        injection h with h2
        subst h2
        subst hk
        exact List.mem_cons_self _ _
      · rw [if_neg hkw] at h
        exact List.mem_cons_of_mem _ (ih h)

/-- Helper: the sweep commutes with the ghost projection. -/
theorem augClean_map_fst (ct t : Int) (A : AugStore) :
    (augClean ct t A).map Prod.fst
      = (A.map Prod.fst).filter fun p => !(sessionExpired ct t p.2) := by
  induction A with
  | nil => rfl
  | cons p rest ih =>
      cases h : sessionExpired ct t p.1.2 <;>
        simp [augClean, List.filter, h, ih] <;>
        simpa [augClean] using ih

/-- Helper: the session write-back commutes with the ghost projection. -/
theorem augSet_map_fst (w : String) (s : ChatSession) (g : List String)
    (A : AugStore) :
    (augSet w s g A).map Prod.fst
      = (A.map Prod.fst).map fun p => if p.1 == w then (p.1, s) else p := by
  simp only [augSet, List.map_map]
  apply List.map_congr_left
  intro p _
  cases h : p.1.1 == w with
  | true => simp [Function.comp, h]
  | false => simp [Function.comp, h]

/-- Helper: write-back faithfulness against `setSession`. -/
theorem augSet_faithful (w : String) (s : ChatSession) (g : List String)
    (A : AugStore) (r : Repeater) (h : A.map Prod.fst = r.chat_sessions) :
    (augSet w s g A).map Prod.fst = (r.setSession w s).chat_sessions := by
  rw [augSet_map_fst, h]
  rfl

/-- Helper: the ghost mirror of the message handler projects onto the real
handler whenever the augmented store projects onto the real store. -/
theorem augHandleMsg_faithful (r : Repeater) (b : String)
    (sr : Except String RevokeInfo) (m : InboundMsg) (c : String) (e : Bool)
    (t : Int) (A : AugStore) (h : A.map Prod.fst = r.chat_sessions) :
    (augHandleMsg r b sr m c e t A).map Prod.fst
      = (r.handle_message_common b sr m c e t).1.chat_sessions := by
  unfold augHandleMsg Repeater.handle_message_common
  cases hp : r.should_process_message m with
  | false => simpa using h
  | true =>
      have hcond : ¬((!true) = true) := by simp
      rw [if_neg hcond, if_neg hcond]
      dsimp only
      have hA1 : (augClean r.cache_timeout t A).map Prod.fst
          = (r.clean_expired_sessions t).chat_sessions := by
        rw [augClean_map_fst, h]; rfl
      cases hl : augLookup m.FromWxid (augClean r.cache_timeout t A) with
      | none =>
          have hlook : (r.clean_expired_sessions t).chat_sessions.lookup
              m.FromWxid = none := by
            rw [← hA1, augLookup_map_fst, hl]; rfl
          simp only [augGetOrCreate, Repeater.get_or_create_session, hl, hlook]
          rw [show (r.clean_expired_sessions t).max_history = r.max_history
            from rfl]
          have hA2 : ((augClean r.cache_timeout t A)
                ++ [((m.FromWxid, ChatSession.new r.max_history), [])]).map
                  Prod.fst
              = ((r.clean_expired_sessions t).chat_sessions
                ++ [(m.FromWxid, ChatSession.new r.max_history)]) := by
            rw [List.map_append, hA1]; rfl
          split
          · rw [augSet_map_fst, hA2]; rfl
          · split
            · cases sr with
              | ok info => rw [augSet_map_fst, hA2]; rfl
              | error err => rw [augSet_map_fst, hA2]; rfl
            · rw [augSet_map_fst, hA2]; rfl
      | some sg =>
          have hlook : (r.clean_expired_sessions t).chat_sessions.lookup
              m.FromWxid = some sg.1 := by
            rw [← hA1, augLookup_map_fst, hl]; rfl
          simp only [augGetOrCreate, Repeater.get_or_create_session, hl, hlook]
          split
          · rw [augSet_map_fst, hA1]; rfl
          · split
            · cases sr with
              | ok info => rw [augSet_map_fst, hA1]; rfl
              | error err => rw [augSet_map_fst, hA1]; rfl
            · rw [augSet_map_fst, hA1]; rfl

/-- Helper: the sweep preserves the store invariant. -/
theorem storeInv_augClean (ct t : Int) (A : AugStore) (h : storeInv A) :
    storeInv (augClean ct t A) :=
  fun e he => h e (List.mem_of_mem_filter he)

/-- Helper: a fresh session with empty ghost satisfies the entry
invariant. -/
theorem entryInv_new (w : String) (mh : Nat) :
    entryInv ((w, ChatSession.new mh), []) := by
  intro c
  simp [entryInv, ChatSession.new, List.lookup]

/-- Helper: adding a fresh session preserves the store invariant. -/
theorem storeInv_append_new (A : AugStore) (w : String) (mh : Nat)
    (h : storeInv A) :
    storeInv (A ++ [((w, ChatSession.new mh), [])]) := by
  intro e he
  rcases List.mem_append.mp he with h1 | h1
  · exact h e h1
  · simp only [List.mem_singleton] at h1
    subst h1
    exact entryInv_new w mh

/-- Helper: appending a window record does not disturb the entry
invariant. -/
theorem entryInv_add_message (w : String) (s : ChatSession)
    (g : List String) (m : MsgInfo) (h : entryInv ((w, s), g)) :
    entryInv ((w, s.add_message m), g) := by
  intro c
  have hc := h c
  simp only [entryInv, ChatSession.add_message] at hc ⊢
  split <;> exact hc

/-- Helper: a successful mark extends metadata, repeated contents and the
ghost list coherently. -/
theorem entryInv_mark_ok (w : String) (s : ChatSession) (g : List String)
    (content : String) (info : RevokeInfo) (h : entryInv ((w, s), g)) :
    entryInv ((w, s.mark_as_repeated content (some info)), content :: g) := by
  intro c
  have hc := h c
  simp only [entryInv, ChatSession.mark_as_repeated] at hc ⊢
  by_cases hqc : content = c
  · subst hqc
    simp [List.lookup]
  · have hbeq : (c == content) = false := by
      simp [Ne.symm hqc]
    simp only [List.lookup, hbeq, List.mem_cons]
    rw [hc]
    constructor
    · rintro ⟨h1, h2⟩
      exact ⟨Or.inr h1, Or.inr h2⟩
    · rintro ⟨h1 | h1, h2 | h2⟩
      · exact absurd h1.symm hqc
      · exact absurd h1.symm hqc
      · exact absurd h2.symm hqc
      · exact ⟨h1, h2⟩

/-- Helper: writing back an entry that satisfies the invariant preserves
the store invariant. -/
theorem storeInv_augSet (w : String) (s : ChatSession) (g : List String)
    (A : AugStore) (hA : storeInv A) (hs : entryInv ((w, s), g)) :
    storeInv (augSet w s g A) := by
  intro e he
  simp only [augSet, List.mem_map] at he
  obtain ⟨p, hp, hpe⟩ := he
  by_cases hkw : (p.1.1 == w) = true
  · rw [if_pos hkw] at hpe
    subst hpe
    exact fun c => hs c
  · rw [if_neg hkw] at hpe
    subst hpe
    exact hA p hp

/-- Helper: the ghost mirror of the message handler preserves the store
invariant. -/
theorem storeInv_augHandleMsg (r : Repeater) (b : String)
    (sr : Except String RevokeInfo) (m : InboundMsg) (c : String) (e : Bool)
    (t : Int) (A : AugStore) (h : storeInv A) :
    storeInv (augHandleMsg r b sr m c e t A) := by
  unfold augHandleMsg
  cases hp : r.should_process_message m with
  | false => simpa using h
  | true =>
      have hcond : ¬((!true) = true) := by simp
      rw [if_neg hcond]
      dsimp only
      have hInv1 : storeInv (augClean r.cache_timeout t A) :=
        storeInv_augClean _ _ _ h
      cases hl : augLookup m.FromWxid (augClean r.cache_timeout t A) with
      | none =>
          simp only [augGetOrCreate, hl]
          have hInv2 := storeInv_append_new _ m.FromWxid r.max_history hInv1
          have hEntry : entryInv
              ((m.FromWxid, ChatSession.new r.max_history), []) :=
            entryInv_new _ _
          split
          · exact storeInv_augSet _ _ _ _ hInv2
              (entryInv_add_message _ _ _ _ hEntry)
          · split
            · cases sr with
              | ok info =>
                  exact storeInv_augSet _ _ _ _ hInv2
                    (entryInv_mark_ok _ _ _ _ _
                      (entryInv_add_message _ _ _ _ hEntry))
              | error err =>
                  exact storeInv_augSet _ _ _ _ hInv2
                    (entryInv_add_message _ _ _ _ hEntry)
            · exact storeInv_augSet _ _ _ _ hInv2
                (entryInv_add_message _ _ _ _ hEntry)
      | some sg =>
          simp only [augGetOrCreate, hl]
          have hEntry : entryInv ((m.FromWxid, sg.1), sg.2) :=
            hInv1 _ (augLookup_mem _ _ _ hl)
          split
          · exact storeInv_augSet _ _ _ _ hInv1
              (entryInv_add_message _ _ _ _ hEntry)
          · split
            · cases sr with
              | ok info =>
                  exact storeInv_augSet _ _ _ _ hInv1
                    (entryInv_mark_ok _ _ _ _ _
                      (entryInv_add_message _ _ _ _ hEntry))
              | error err =>
                  exact storeInv_augSet _ _ _ _ hInv1
                    (entryInv_add_message _ _ _ _ hEntry)
            · exact storeInv_augSet _ _ _ _ hInv1
                (entryInv_add_message _ _ _ _ hEntry)

/-- Helper: the plugin component of the augmented run is the real run. -/
theorem augRun_fst (es : List Event) : ∀ (p : Repeater × AugStore),
    (augRun p es).1 = p.1.run es := by
  induction es with
  | nil => intro p; rfl
  | cons ev es ih =>
      intro p
      show (augRun (augStep p ev) es).1 = _
      rw [ih]
      have hstep : (augStep p ev).1 = p.1.step ev := by
        obtain ⟨r, A⟩ := p
        cases ev <;> rfl
      rw [hstep]
      rfl

/-- Helper: the augmented run stays faithful to the real store and keeps
the store invariant. -/
theorem augRun_invariant (es : List Event) : ∀ (p : Repeater × AugStore),
    p.2.map Prod.fst = p.1.chat_sessions → storeInv p.2 →
    ((augRun p es).2.map Prod.fst = (augRun p es).1.chat_sessions
      ∧ storeInv (augRun p es).2) := by
  induction es with
  | nil => intro p h1 h2; exact ⟨h1, h2⟩
  | cons ev es ih =>
      intro p h1 h2
      show (augRun (augStep p ev) es).2.map Prod.fst
          = (augRun (augStep p ev) es).1.chat_sessions
        ∧ storeInv (augRun (augStep p ev) es).2
      apply ih
      · obtain ⟨r, A⟩ := p
        cases ev with
        | msg b sr m c e t => exact augHandleMsg_faithful r b sr m c e t A h1
        | rev m res =>
            show A.map Prod.fst = (r.handle_revoke m res).1.chat_sessions
            rw [handle_revoke_state_unchanged]
            exact h1
      · obtain ⟨r, A⟩ := p
        cases ev with
        | msg b sr m c e t => exact storeInv_augHandleMsg r b sr m c e t A h2
        | rev m res => exact h2

/-- C8: over every event trace from the initial plugin state, the
ghost-augmented store projects onto the exact session store reached by the
real coordinator, and in every reachable session a content has an entry in
`repeated_msgs` (echo metadata) iff it is in `repeated_contents` and the
outbound echo for it actually succeeded (recorded in the ghost list); in
particular a failed send registers nothing. -/
theorem echo_metadata_iff_sent (enable : Bool) (cache_timeout : Int)
    (enable_in_group enable_in_private : Bool)
    (max_history min_repeat_count min_different_users : Nat)
    (es : List Event) :
    ((augRun (Repeater.initial enable cache_timeout enable_in_group
        enable_in_private max_history min_repeat_count min_different_users,
        []) es).2.map Prod.fst
      = ((Repeater.initial enable cache_timeout enable_in_group
          enable_in_private max_history min_repeat_count
          min_different_users).run es).chat_sessions)
    ∧ ∀ w s g, ((w, s), g) ∈ (augRun (Repeater.initial enable cache_timeout
          enable_in_group enable_in_private max_history min_repeat_count
          min_different_users, []) es).2 →
        ∀ c, (s.repeated_msgs.lookup c).isSome
          ↔ (c ∈ s.repeated_contents ∧ c ∈ g) := by
  have hinv := augRun_invariant es
    (Repeater.initial enable cache_timeout enable_in_group enable_in_private
      max_history min_repeat_count min_different_users, [])
    rfl (fun e he => absurd he (List.not_mem_nil e))
  constructor
  · rw [hinv.1, augRun_fst]
  · intro w s g hmem c
    exact hinv.2 ((w, s), g) hmem c

/-- Witness for C8: after the two events `exEv1`, `exEv2` the session under
`g` was echoed with a successful send; the invariant holds at it for the
content `hi`. -/
theorem echo_metadata_iff_sent_witness :
    ((("g", exRunSession), ["hi"])
        ∈ (augRun (Repeater.initial true 3600 true false 50 2 2, [])
            [exEv1, exEv2]).2)
    ∧ ((exRunSession.repeated_msgs.lookup "hi").isSome
        ↔ ("hi" ∈ exRunSession.repeated_contents ∧ "hi" ∈ ["hi"])) :=
  ⟨by decide,
    (echo_metadata_iff_sent true 3600 true false 50 2 2 [exEv1, exEv2]).2
      "g" exRunSession ["hi"] (by decide) "hi"⟩
